import Mathlib

/-!
Verification of the partyhat planning core: a shallow embedding of
`src/agents/schemas/plan_schema.py`, `src/agents/agents/memory_manager.py`,
`src/agents/agents/planning_tools.py` and `src/agents/agents/planning_agent.py`.

Python values parsed from JSON are modelled by the `Json` inductive; Python
`json.loads` is an external capability and is passed to the tools as an
explicit `loads` parameter. A Letta memory block holding its initial
sentinel value ("No plan yet.") is modelled as `none`; a written block holds
the serialized document as a `Json` value. Python exceptions caught by the
tools are modelled by `Except` error branches that the tools turn into
returned strings, as the source's try/except blocks do.
-/

set_option maxHeartbeats 1000000 in
/-- A JSON value as Python json.loads returns one (floats are not needed by
this code base, numbers are modelled as integers). -/
inductive Json where
  | null : Json
  | bool : Bool → Json
  | num : Int → Json
  | str : String → Json
  | arr : List Json → Json
  | obj : List (String × Json) → Json

/-- Lookup of a key in a Python dict, modelled as first match in the field
list (a Python dict holds each key once). -/
def Json.lookupField : List (String × Json) → String → Option Json
  | [], _ => none
  | (k, v) :: rest, key => if k = key then some v else Json.lookupField rest key

/-- Reading `d[key]` on an object, `none` when the key is absent or the value
is not a dict. -/
def Json.getField : Json → String → Option Json
  | .obj fields, key => Json.lookupField fields key
  | _, _ => none

/-- Python dict assignment `d[key] = v`: replaces the value in place when the
key exists, otherwise appends the new key at the end. -/
def Json.setKey : List (String × Json) → String → Json → List (String × Json)
  | [], key, v => [(key, v)]
  | (k, w) :: rest, key, v =>
      if k = key then (key, v) :: rest else (k, w) :: Json.setKey rest key v

/-- Item assignment `raw[key] = v`: a TypeError on anything that is not a
dict, as in Python (the tools catch it and report it as text). -/
def Json.setField : Json → String → Json → Except String Json
  | .obj fields, key, v => .ok (.obj (Json.setKey fields key v))
  | _, _, _ => .error "TypeError: object does not support item assignment"

mutual

/-- Python json.dumps (compact variant; the source passes indent=2, which
only changes whitespace and is immaterial to every property proved here). -/
def Json.dumps : Json → String
  | .null => "null"
  | .bool b => cond b "true" "false"
  | .num n => toString n
  | .str s => "\"" ++ s ++ "\""
  | .arr elems => "[" ++ String.intercalate ", " (Json.dumpsArray elems) ++ "]"
  | .obj fields => "\x7b" ++ String.intercalate ", " (Json.dumpsObj fields) ++ "\x7d"

/-- Serialized elements of a JSON array. -/
def Json.dumpsArray : List Json → List String
  | [] => []
  | j :: rest => Json.dumps j :: Json.dumpsArray rest

/-- Serialized key/value pairs of a JSON object. -/
def Json.dumpsObj : List (String × Json) → List String
  | [] => []
  | (k, v) :: rest => ("\"" ++ k ++ "\": " ++ Json.dumps v) :: Json.dumpsObj rest

end

/-- One char list a prefix of another: the model of Python startswith. -/
def listStartsWith : List Char → List Char → Bool
  | _, [] => true
  | [], _ :: _ => false
  | c :: cs, p :: ps => c == p && listStartsWith cs ps

/-- One char list a substring of another: the model of Python `sub in s`. -/
def listContainsSub : List Char → List Char → Bool
  | [], sub => sub.isEmpty
  | c :: rest, sub => listStartsWith (c :: rest) sub || listContainsSub rest sub

/-- Python `s.split(sep)` over char lists, fuel-structured so the kernel can
evaluate it: split at each non-overlapping occurrence of the non-empty
separator, left to right. `fuel` bounds the scan; the callers pass the input
length + 1, which a scan consuming at least one char per step never
exhausts. -/
def splitChars : Nat → List Char → List Char → List Char → List (List Char)
  | _, _, [], acc => [acc.reverse]
  | 0, _, s, acc => [acc.reverse ++ s]
  | fuel + 1, sep, c :: rest, acc =>
      if listStartsWith (c :: rest) sep && !sep.isEmpty then
        acc.reverse :: splitChars fuel sep (List.drop sep.length (c :: rest)) []
      else
        splitChars fuel sep rest (c :: acc)

/-- Python `s.replace(pat, rep)` over char lists: every non-overlapping
occurrence, left to right, with the same fuel discipline as splitChars. -/
def replaceChars : Nat → List Char → List Char → List Char → List Char
  | _, [], _, _ => []
  | 0, s, _, _ => s
  | fuel + 1, c :: rest, pat, rep =>
      if listStartsWith (c :: rest) pat && !pat.isEmpty then
        rep ++ replaceChars fuel (List.drop pat.length (c :: rest)) pat rep
      else
        c :: replaceChars fuel rest pat rep

/-- The whitespace Python str.strip removes. -/
def isPySpace (c : Char) : Bool :=
  c == ' ' || c == '\t' || c == '\n' || c == '\r' || c == '\x0b' || c == '\x0c'

/-- Python substring containment `sub in s`. -/
def strContains (s sub : String) : Bool :=
  listContainsSub s.data sub.data

/-- Python `s.split(sep)`. -/
def pySplit (s sep : String) : List String :=
  (splitChars (s.data.length + 1) sep.data s.data []).map String.mk

/-- Python `s.upper()` (the inputs here are ASCII). -/
def pyUpper (s : String) : String :=
  String.mk (s.data.map Char.toUpper)

/-- Python `s.replace(pat, rep)`. -/
def pyReplace (s pat rep : String) : String :=
  String.mk (replaceChars (s.data.length + 1) s.data pat.data rep.data)

/-- Python `s.strip()`. -/
def pyStrip (s : String) : String :=
  String.mk (((s.data.dropWhile isPySpace).reverse.dropWhile isPySpace).reverse)

/-- Python `s.startswith(p)`. -/
def pyStartsWith (s p : String) : Bool :=
  listStartsWith s.data p.data

/-- Python `s[n:]`. -/
def pyDrop (s : String) (n : Nat) : String :=
  String.mk (s.data.drop n)

/-- PlanStatus from src/agents/schemas/plan_schema.py: the lifecycle status
enum of a smart contract plan, in declaration order. -/
inductive PlanStatus where
  | DRAFT
  | READY
  | GENERATING
  | TESTING
  | DEPLOYED
deriving Repr, DecidableEq

/-- The string value of each PlanStatus member. -/
def PlanStatus.value : PlanStatus → String
  | .DRAFT => "draft"
  | .READY => "ready"
  | .GENERATING => "generating"
  | .TESTING => "testing"
  | .DEPLOYED => "deployed"

/-- Constructing a PlanStatus from its string value, as pydantic does when it
validates the `status` field; `none` for a string that is no member value. -/
def PlanStatus.ofValue (s : String) : Option PlanStatus :=
  if s = "draft" then some .DRAFT
  else if s = "ready" then some .READY
  else if s = "generating" then some .GENERATING
  else if s = "testing" then some .TESTING
  else if s = "deployed" then some .DEPLOYED
  else none

/-- Position of a status in the enum declaration order
draft < ready < generating < testing < deployed. -/
def PlanStatus.rank : PlanStatus → Nat
  | .DRAFT => 0
  | .READY => 1
  | .GENERATING => 2
  | .TESTING => 3
  | .DEPLOYED => 4

/-- FunctionInput from plan_schema.py. -/
structure FunctionInput where
  name : String
  type : String
  description : String
deriving Repr, DecidableEq

/-- FunctionOutput from plan_schema.py. -/
structure FunctionOutput where
  type : String
  description : String
deriving Repr, DecidableEq

/-- ContractFunction from plan_schema.py. -/
structure ContractFunction where
  name : String
  description : String
  inputs : List FunctionInput
  outputs : List FunctionOutput
  conditions : List String
deriving Repr, DecidableEq

/-- Constructor from plan_schema.py: the constructor that runs once on
deployment. -/
structure Constructor where
  inputs : List FunctionInput
  description : String
deriving Repr, DecidableEq

/-- ContractPlan from plan_schema.py: the schema of one smart contract. -/
structure ContractPlan where
  name : String
  description : String
  erc_template : Option String
  dependencies : List String
  constructor : Constructor
  functions : List ContractFunction
deriving Repr, DecidableEq

/-- SmartContractPlan from plan_schema.py: the top-level output of the
planning agent. The status field carries the pydantic default DRAFT. -/
structure SmartContractPlan where
  project_name : String
  description : String
  status : PlanStatus := PlanStatus.DRAFT
  contracts : List ContractPlan
deriving Repr, DecidableEq

/-- Pydantic validation of a required string field: present and a string, or
a diagnostic naming the field (modelling pydantic's per-field error report). -/
def decodeStr (field : String) : Option Json → Except String String
  | some (.str s) => .ok s
  | some _ => .error (field ++ ": Input should be a valid string")
  | none => .error (field ++ ": Field required")

/-- Pydantic validation of `Optional[str]` with no default (erc_template):
the key is required, its value may be null. -/
def decodeOptStr (field : String) : Option Json → Except String (Option String)
  | some (.str s) => .ok (some s)
  | some .null => .ok none
  | some _ => .error (field ++ ": Input should be a valid string or null")
  | none => .error (field ++ ": Field required")

/-- Elements of a `list[str]` field. -/
def decodeStrElems (field : String) : List Json → Except String (List String)
  | [] => .ok []
  | .str s :: rest => do
      let tail ← decodeStrElems field rest
      .ok (s :: tail)
  | _ :: _ => .error (field ++ ": Input should be a valid string")

/-- Pydantic validation of a required `list[str]` field. -/
def decodeStrList (field : String) : Option Json → Except String (List String)
  | some (.arr xs) => decodeStrElems field xs
  | some _ => .error (field ++ ": Input should be a valid list")
  | none => .error (field ++ ": Field required")

/-- Pydantic construction of a FunctionInput from a parsed JSON value. -/
def FunctionInput.fromJson (j : Json) : Except String FunctionInput :=
  match j with
  | .obj _ => do
      let name ← decodeStr "name" (j.getField "name")
      let ty ← decodeStr "type" (j.getField "type")
      let description ← decodeStr "description" (j.getField "description")
      .ok ⟨name, ty, description⟩
  | _ => .error "FunctionInput: Input should be a valid dictionary"

/-- Pydantic construction of each element of a `list[FunctionInput]`. -/
def FunctionInput.fromJsonList : List Json → Except String (List FunctionInput)
  | [] => .ok []
  | j :: rest => do
      let x ← FunctionInput.fromJson j
      let xs ← FunctionInput.fromJsonList rest
      .ok (x :: xs)

/-- Pydantic construction of a FunctionOutput from a parsed JSON value. -/
def FunctionOutput.fromJson (j : Json) : Except String FunctionOutput :=
  match j with
  | .obj _ => do
      let ty ← decodeStr "type" (j.getField "type")
      let description ← decodeStr "description" (j.getField "description")
      .ok ⟨ty, description⟩
  | _ => .error "FunctionOutput: Input should be a valid dictionary"

/-- Pydantic construction of each element of a `list[FunctionOutput]`. -/
def FunctionOutput.fromJsonList : List Json → Except String (List FunctionOutput)
  | [] => .ok []
  | j :: rest => do
      let x ← FunctionOutput.fromJson j
      let xs ← FunctionOutput.fromJsonList rest
      .ok (x :: xs)

/-- Pydantic construction of a ContractFunction from a parsed JSON value. -/
def ContractFunction.fromJson (j : Json) : Except String ContractFunction :=
  match j with
  | .obj _ => do
      let name ← decodeStr "name" (j.getField "name")
      let description ← decodeStr "description" (j.getField "description")
      let inputs ← (match j.getField "inputs" with
        | some (.arr xs) => FunctionInput.fromJsonList xs
        | some _ => .error "inputs: Input should be a valid list"
        | none => .error "inputs: Field required")
      let outputs ← (match j.getField "outputs" with
        | some (.arr xs) => FunctionOutput.fromJsonList xs
        | some _ => .error "outputs: Input should be a valid list"
        | none => .error "outputs: Field required")
      let conditions ← decodeStrList "conditions" (j.getField "conditions")
      .ok ⟨name, description, inputs, outputs, conditions⟩
  | _ => .error "ContractFunction: Input should be a valid dictionary"

/-- Pydantic construction of each element of a `list[ContractFunction]`. -/
def ContractFunction.fromJsonList : List Json → Except String (List ContractFunction)
  | [] => .ok []
  | j :: rest => do
      let x ← ContractFunction.fromJson j
      let xs ← ContractFunction.fromJsonList rest
      .ok (x :: xs)

/-- Pydantic construction of a Constructor from a parsed JSON value. -/
def Constructor.fromJson (j : Json) : Except String Constructor :=
  match j with
  | .obj _ => do
      let inputs ← (match j.getField "inputs" with
        | some (.arr xs) => FunctionInput.fromJsonList xs
        | some _ => .error "inputs: Input should be a valid list"
        | none => .error "inputs: Field required")
      let description ← decodeStr "description" (j.getField "description")
      .ok ⟨inputs, description⟩
  | _ => .error "Constructor: Input should be a valid dictionary"

/-- Pydantic construction of a ContractPlan from a parsed JSON value. -/
def ContractPlan.fromJson (j : Json) : Except String ContractPlan :=
  match j with
  | .obj _ => do
      let name ← decodeStr "name" (j.getField "name")
      let description ← decodeStr "description" (j.getField "description")
      let erc_template ← decodeOptStr "erc_template" (j.getField "erc_template")
      let dependencies ← decodeStrList "dependencies" (j.getField "dependencies")
      let ctor ← (match j.getField "constructor" with
        | some cj => Constructor.fromJson cj
        | none => .error "constructor: Field required")
      let functions ← (match j.getField "functions" with
        | some (.arr xs) => ContractFunction.fromJsonList xs
        | some _ => .error "functions: Input should be a valid list"
        | none => .error "functions: Field required")
      .ok ⟨name, description, erc_template, dependencies, ctor, functions⟩
  | _ => .error "ContractPlan: Input should be a valid dictionary"

/-- Pydantic construction of each element of a `list[ContractPlan]`. -/
def ContractPlan.fromJsonList : List Json → Except String (List ContractPlan)
  | [] => .ok []
  | j :: rest => do
      let x ← ContractPlan.fromJson j
      let xs ← ContractPlan.fromJsonList rest
      .ok (x :: xs)

/-- Pydantic validation of the `status` field: optional with default DRAFT,
a present value must be a string naming a PlanStatus member. -/
def decodeStatus : Option Json → Except String PlanStatus
  | none => .ok PlanStatus.DRAFT
  | some (.str s) =>
      (match PlanStatus.ofValue s with
       | some st => .ok st
       | none => .error "status: Input should be a valid PlanStatus member")
  | some _ => .error "status: Input should be a valid PlanStatus member"

/-- Pydantic validation of the required `list[ContractPlan]` field. -/
def decodeContracts : Option Json → Except String (List ContractPlan)
  | some (.arr xs) => ContractPlan.fromJsonList xs
  | some _ => .error "contracts: Input should be a valid list"
  | none => .error "contracts: Field required"

/-- SmartContractPlan(**raw): full schema validation as pydantic performs
it on construction. Fields are validated in declaration order and the first
offending field is reported; `status` is optional with default DRAFT,
every other field is required; keys the schema does not declare are
ignored (pydantic's default `extra` policy). -/
def SmartContractPlan.fromJson (j : Json) : Except String SmartContractPlan :=
  match j with
  | .obj _ => do
      let project_name ← decodeStr "project_name" (j.getField "project_name")
      let description ← decodeStr "description" (j.getField "description")
      let status ← decodeStatus (j.getField "status")
      let contracts ← decodeContracts (j.getField "contracts")
      .ok ⟨project_name, description, status, contracts⟩
  | _ => .error "SmartContractPlan: Input should be a valid dictionary"

/-- Serialized form of a FunctionInput (model_dump). -/
def FunctionInput.toJson (x : FunctionInput) : Json :=
  .obj [("name", .str x.name), ("type", .str x.type),
        ("description", .str x.description)]

/-- Serialized form of a FunctionOutput (model_dump). -/
def FunctionOutput.toJson (x : FunctionOutput) : Json :=
  .obj [("type", .str x.type), ("description", .str x.description)]

/-- Serialized form of a ContractFunction (model_dump). -/
def ContractFunction.toJson (f : ContractFunction) : Json :=
  .obj [("name", .str f.name), ("description", .str f.description),
        ("inputs", .arr (f.inputs.map FunctionInput.toJson)),
        ("outputs", .arr (f.outputs.map FunctionOutput.toJson)),
        ("conditions", .arr (f.conditions.map Json.str))]

/-- Serialized form of a Constructor (model_dump). -/
def Constructor.toJson (c : Constructor) : Json :=
  .obj [("inputs", .arr (c.inputs.map FunctionInput.toJson)),
        ("description", .str c.description)]

/-- Serialized form of a ContractPlan (model_dump); a null erc_template
signals a fully custom contract. -/
def ContractPlan.toJson (c : ContractPlan) : Json :=
  .obj [("name", .str c.name), ("description", .str c.description),
        ("erc_template", match c.erc_template with
                         | some t => .str t
                         | none => .null),
        ("dependencies", .arr (c.dependencies.map Json.str)),
        ("constructor", c.constructor.toJson),
        ("functions", .arr (c.functions.map ContractFunction.toJson))]

/-- plan.model_dump(): the persisted record shape of a SmartContractPlan,
fields in declaration order, status as its string value. -/
def SmartContractPlan.model_dump (p : SmartContractPlan) : Json :=
  .obj [("project_name", .str p.project_name),
        ("description", .str p.description),
        ("status", .str p.status.value),
        ("contracts", .arr (p.contracts.map ContractPlan.toJson))]

/-- The persistent memory reachable through MemoryManager
(src/agents/agents/memory_manager.py): the agent's `current_plan` block, the
agent's `user_context` block and the shared `global_contract_plan` block.
A block still holding its creation sentinel ("No plan yet.") is `none`. -/
structure Store where
  current_plan : Option Json
  user_context : String
  global_contract_plan : Option Json

namespace MemoryManager

/-- MemoryManager.save_plan: writes the serialized plan to the agent's
current_plan block and then mirrors it to the global block
(save_to_global_memory, get-or-create then overwrite). No check of any kind
is performed on the previously stored document. -/
def save_plan (plan : Json) (s : Store) : Store :=
  { current_plan := some plan,
    user_context := s.user_context,
    global_contract_plan := some plan }

/-- MemoryManager.get_plan: the parsed current_plan block, `none` while the
block still holds "No plan yet.". -/
def get_plan (s : Store) : Option Json :=
  s.current_plan

/-- MemoryManager.update_user_context: overwrites the user_context block. -/
def update_user_context (context : String) (s : Store) : Store :=
  { s with user_context := context }

/-- MemoryManager.get_from_global_memory: the parsed global block, `none`
while it still holds "No plan yet.". -/
def get_from_global_memory (s : Store) : Option Json :=
  s.global_contract_plan

end MemoryManager

/-- One entry of the static ERC_STANDARDS catalog in planning_tools.py. -/
structure ErcStandard where
  description : String
  standard_functions : List String
  standard_events : List String
  typical_extensions : List String
deriving Repr

/-- ERC_STANDARDS from planning_tools.py: static reference data keyed by
standard name. -/
def ERC_STANDARDS : List (String × ErcStandard) :=
  [("ERC-20",
    { description :=
        "Fungible token standard. All tokens are identical and interchangeable.",
      standard_functions :=
        ["totalSupply() → uint256",
         "balanceOf(address account) → uint256",
         "transfer(address to, uint256 amount) → bool",
         "allowance(address owner, address spender) → uint256",
         "approve(address spender, uint256 amount) → bool",
         "transferFrom(address from, address to, uint256 amount) → bool"],
      standard_events :=
        ["Transfer(address from, address to, uint256 value)",
         "Approval(address owner, address spender, uint256 value)"],
      typical_extensions :=
        ["Mintable", "Burnable", "Pausable", "Ownable", "Capped"] }),
   ("ERC-721",
    { description := "Non-fungible token standard. Each token is unique.",
      standard_functions :=
        ["balanceOf(address owner) → uint256",
         "ownerOf(uint256 tokenId) → address",
         "safeTransferFrom(address from, address to, uint256 tokenId)",
         "transferFrom(address from, address to, uint256 tokenId)",
         "approve(address to, uint256 tokenId)",
         "getApproved(uint256 tokenId) → address",
         "setApprovalForAll(address operator, bool approved)",
         "isApprovedForAll(address owner, address operator) → bool"],
      standard_events :=
        ["Transfer(address from, address to, uint256 tokenId)",
         "Approval(address owner, address approved, uint256 tokenId)",
         "ApprovalForAll(address owner, address operator, bool approved)"],
      typical_extensions :=
        ["Mintable", "Burnable", "URIStorage", "Royalties (EIP-2981)",
         "Enumerable"] }),
   ("ERC-1155",
    { description :=
        "Multi-token standard. Supports both fungible and non-fungible tokens in one contract.",
      standard_functions :=
        ["balanceOf(address account, uint256 id) → uint256",
         "balanceOfBatch(address[] accounts, uint256[] ids) → uint256[]",
         "setApprovalForAll(address operator, bool approved)",
         "isApprovedForAll(address account, address operator) → bool",
         "safeTransferFrom(address from, address to, uint256 id, uint256 amount, bytes data)",
         "safeBatchTransferFrom(address from, address to, uint256[] ids, uint256[] amounts, bytes data)"],
      standard_events :=
        ["TransferSingle", "TransferBatch", "ApprovalForAll", "URI"],
      typical_extensions :=
        ["Mintable", "Burnable", "Supply tracking", "Pausable"] })]

/-- Lookup in the catalog: Python `ERC_STANDARDS.get(key)`. -/
def findStandard : List (String × ErcStandard) → String → Option ErcStandard
  | [], _ => none
  | (k, v) :: rest, key => if k = key then some v else findStandard rest key

/-- The dict `{"standard": standard_name, **standard}` the tool serializes on
a successful lookup. -/
def ercStandardJson (standard_name : String) (std : ErcStandard) : Json :=
  .obj [("standard", .str standard_name),
        ("description", .str std.description),
        ("standard_functions", .arr (std.standard_functions.map Json.str)),
        ("standard_events", .arr (std.standard_events.map Json.str)),
        ("typical_extensions", .arr (std.typical_extensions.map Json.str))]

/-- Tool get_current_plan from planning_tools.py: read-only report of the
current draft. -/
def get_current_plan (s : Store) : Store × String :=
  match MemoryManager.get_plan s with
  | some plan => (s, "Current plan found:\n" ++ Json.dumps plan)
  | none => (s, "No plan exists yet. This is a fresh start.")

/-- Tool save_plan_draft from planning_tools.py: parse the payload, force
status to draft, validate, persist through MemoryManager.save_plan; every
failure is returned as text and leaves the store untouched. `loads` is the
external json.loads capability. -/
def save_plan_draft (loads : String → Except String Json) (plan_json : String)
    (s : Store) : Store × String :=
  match loads plan_json with
  | .error e => (s, "Invalid JSON. Could not save draft: " ++ e)
  | .ok raw =>
    match raw.setField "status" (.str PlanStatus.DRAFT.value) with
    | .error e => (s, "Could not save draft: " ++ e)
    | .ok raw2 =>
      match SmartContractPlan.fromJson raw2 with
      | .error e => (s, "Could not save draft: " ++ e)
      | .ok plan =>
        (MemoryManager.save_plan plan.model_dump s,
         "Draft saved successfully. Plan has " ++ toString plan.contracts.length
           ++ " contract(s) and status is '" ++ plan.status.value ++ "'.")

/-- Tool get_erc_standard from planning_tools.py: normalize the requested
name with upper + replace("ERC", "ERC-") + strip, look it up, and either
serialize the record or enumerate the valid ids. The store is untouched. -/
def get_erc_standard (standard_name : String) (s : Store) : Store × String :=
  match findStandard ERC_STANDARDS
      (pyStrip (pyReplace (pyUpper standard_name) "ERC" "ERC-")) with
  | some standard => (s, Json.dumps (ercStandardJson standard_name standard))
  | none =>
      let available := String.intercalate ", " (ERC_STANDARDS.map Prod.fst)
      (s, "Unknown standard '" ++ standard_name ++ "'. Available standards: "
            ++ available
            ++ ". If the user wants something custom, use null for erc_template.")

/-- One line of validate_plan's summary; Python `c.erc_template or 'custom'`
falls back on both None and the empty string. -/
def contractSummary (c : ContractPlan) : String :=
  "  - " ++ c.name ++ " ("
    ++ (match c.erc_template with
        | some t => if t = "" then "custom" else t
        | none => "custom")
    ++ "): " ++ toString c.functions.length ++ " function(s)"

/-- Tool validate_plan from planning_tools.py: run the schema check only, no
persistence; diagnostics come back as text. -/
def validate_plan (loads : String → Except String Json) (plan_json : String)
    (s : Store) : Store × String :=
  match loads plan_json with
  | .error e => (s, "Invalid JSON: " ++ e)
  | .ok raw =>
    match SmartContractPlan.fromJson raw with
    | .error e => (s, "Validation failed: " ++ e)
    | .ok plan =>
      (s, "Plan is valid.\nProject: " ++ plan.project_name
            ++ "\nStatus: " ++ plan.status.value ++ "\nContracts:\n"
            ++ String.intercalate "\n" (plan.contracts.map contractSummary))

/-- Tool publish_final_plan from planning_tools.py: parse the payload, force
status to ready, validate, persist to agent and global memory; every failure
is returned as text and leaves the store untouched. -/
def publish_final_plan (loads : String → Except String Json) (plan_json : String)
    (s : Store) : Store × String :=
  match loads plan_json with
  | .error e => (s, "Invalid JSON — could not publish: " ++ e)
  | .ok raw =>
    match raw.setField "status" (.str PlanStatus.READY.value) with
    | .error e => (s, "Could not publish plan: " ++ e)
    | .ok raw2 =>
      match SmartContractPlan.fromJson raw2 with
      | .error e => (s, "Could not publish plan: " ++ e)
      | .ok plan =>
        (MemoryManager.save_plan plan.model_dump s,
         "Plan published successfully!\nProject '" ++ plan.project_name
           ++ "' is now status '" ++ plan.status.value
           ++ "'.\nThe code generation agent can now pick this up from global memory."
           ++ "\nThe user can still edit the plan as long as the contract is not deployed.")

/-- String elements of a Python list, `none` when one element is no string
(then `"\n---\n".join(...)` raises a TypeError the tool reports as text). -/
def stringElems : List Json → Option (List String)
  | [] => some []
  | .str s :: rest => (stringElems rest).map (fun tail => s :: tail)
  | _ :: _ => none

/-- Tool save_reasoning_note from planning_tools.py: read existing notes out
of the stored plan's `_reasoning_notes` key (the tool never writes that key,
so on every state the store's save_plan can reach the list is empty), append
the new note and overwrite the user_context block with the joined text. -/
def save_reasoning_note (note : String) (s : Store) : Store × String :=
  let existing_notes : Except String (List String) :=
    match MemoryManager.get_plan s with
    | some plan =>
        match plan.getField "_reasoning_notes" with
        | some (.arr xs) =>
            (match stringElems xs with
             | some notes => .ok notes
             | none => .error "TypeError: sequence item is not a string")
        | some _ => .error "AttributeError: append on a value that is no list"
        | none => .ok []
    | none => .ok []
  match existing_notes with
  | .error e => (s, "Could not save reasoning note: " ++ e)
  | .ok notes =>
      let notes_text := String.intercalate "\n---\n" (notes ++ [note])
      (MemoryManager.update_user_context
         ("Reasoning notes from this session:\n" ++ notes_text) s,
       "Reasoning note saved: '" ++ note ++ "'")

/-- PlanningState from planning_agent.py, message turns kept as their text
content. -/
structure PlanningState where
  messages : List String
  plan_ready : Bool
  final_plan : Option Json

/-- The chatbot node of planning_agent.py, parameterized over the llm's
reply (the completion capability is external): append the reply and set
plan_ready exactly when the reply contains the PLAN_READY sentinel. -/
def chatbot (response : String) (state : PlanningState) : PlanningState :=
  if strContains response "PLAN_READY" then
    { messages := state.messages ++ [response], plan_ready := true,
      final_plan := none }
  else
    { messages := state.messages ++ [response], plan_ready := false,
      final_plan := none }

/-- The string surgery of extract_plan in planning_agent.py: text after the
sentinel (whole reply when the sentinel is absent), outer fence and optional
`json` tag stripped when fence markers are present, whitespace trimmed. -/
def extractCandidate (last_message : String) : String :=
  let json_str :=
    if strContains last_message "PLAN_READY" then
      pyStrip ((pySplit last_message "PLAN_READY").getLastD "")
    else last_message
  let json_str :=
    if strContains json_str "```" then
      let piece := (pySplit json_str "```").getD 1 ""
      if pyStartsWith piece "json" then pyDrop piece 4 else piece
    else json_str
  pyStrip json_str

/-- json.loads followed by SmartContractPlan(**raw): the parse + validate
step of extract_plan. -/
def parsePlan (loads : String → Except String Json) (json_str : String) :
    Except String SmartContractPlan :=
  match loads json_str with
  | .error e => .error e
  | .ok raw => SmartContractPlan.fromJson raw

/-- The extract_plan node of planning_agent.py: run the candidate through
parse + schema validation; on success the session is finalized with the
validated document, on any failure it falls back to the conversation state
(plan_ready false, final_plan absent). The node returns no new message, so
the add_messages-annotated history is unchanged. -/
def extract_plan (loads : String → Except String Json)
    (state : PlanningState) : PlanningState :=
  let last_message := state.messages.getLastD ""
  match parsePlan loads (extractCandidate last_message) with
  | .ok plan =>
      { messages := state.messages, plan_ready := true,
        final_plan := some plan.model_dump }
  | .error _ =>
      { messages := state.messages, plan_ready := false, final_plan := none }

/-- The should_continue router of planning_agent.py: go to extract_plan when
the plan_ready flag is set or the last reply holds a ```json fence or the
PLAN_READY sentinel, otherwise pause for human input. -/
def should_continue (state : PlanningState) : String :=
  let last_message := state.messages.getLastD ""
  if state.plan_ready || strContains last_message "```json"
      || strContains last_message "PLAN_READY" then
    "extract_plan"
  else
    "human_input"

/-- Bind on a successful Except reduces to the continuation. -/
@[simp] theorem except_ok_bind {ε α β : Type} (a : α) (f : α → Except ε β) :
    (Except.ok a : Except ε α) >>= f = f a := rfl

/-- Bind on a failed Except short-circuits. -/
@[simp] theorem except_error_bind {ε α β : Type} (e : ε) (f : α → Except ε β) :
    (Except.error e : Except ε α) >>= f = Except.error e := rfl

/-- Looking up the key just set finds the value just written. -/
theorem Json.lookupField_setKey_self (fs : List (String × Json)) (k : String)
    (v : Json) : Json.lookupField (Json.setKey fs k v) k = some v := by
  induction fs with
  | nil => simp [Json.setKey, Json.lookupField]
  | cons kv rest ih =>
      obtain ⟨kk, w⟩ := kv
      by_cases h : kk = k
      · simp [Json.setKey, Json.lookupField, h]
      · simp [Json.setKey, Json.lookupField, h, ih]

/-- Setting one key leaves every other key's lookup unchanged. -/
theorem Json.lookupField_setKey_ne (fs : List (String × Json)) (k key : String)
    (v : Json) (h : key ≠ k) :
    Json.lookupField (Json.setKey fs k v) key = Json.lookupField fs key := by
  induction fs with
  | nil => simp [Json.setKey, Json.lookupField, Ne.symm h]
  | cons kv rest ih =>
      obtain ⟨kk, w⟩ := kv
      by_cases hk : kk = k
      · subst hk
        simp [Json.setKey, Json.lookupField, Ne.symm h]
      · simp [Json.setKey, Json.lookupField, hk, ih]

/-- Round trip of a serialized FunctionInput through pydantic validation. -/
theorem functionInput_roundtrip (x : FunctionInput) :
    FunctionInput.fromJson x.toJson = .ok x := by
  cases x
  rfl

/-- Round trip of a serialized `list[FunctionInput]`. -/
theorem functionInput_list_roundtrip (xs : List FunctionInput) :
    FunctionInput.fromJsonList (xs.map FunctionInput.toJson) = .ok xs := by
  induction xs with
  | nil => rfl
  | cons x rest ih =>
      simp [FunctionInput.fromJsonList, functionInput_roundtrip, ih]

/-- Round trip of a serialized FunctionOutput through pydantic validation. -/
theorem functionOutput_roundtrip (x : FunctionOutput) :
    FunctionOutput.fromJson x.toJson = .ok x := by
  cases x
  rfl

/-- Round trip of a serialized `list[FunctionOutput]`. -/
theorem functionOutput_list_roundtrip (xs : List FunctionOutput) :
    FunctionOutput.fromJsonList (xs.map FunctionOutput.toJson) = .ok xs := by
  induction xs with
  | nil => rfl
  | cons x rest ih =>
      simp [FunctionOutput.fromJsonList, functionOutput_roundtrip, ih]

/-- Round trip of a serialized `list[str]`. -/
theorem decodeStrElems_map (field xs) :
    decodeStrElems field (List.map Json.str xs) = .ok xs := by
  induction xs with
  | nil => rfl
  | cons x rest ih => simp [decodeStrElems, ih]

/-- Round trip of a serialized ContractFunction through pydantic validation. -/
theorem contractFunction_roundtrip (f : ContractFunction) :
    ContractFunction.fromJson f.toJson = .ok f := by
  cases f
  simp [ContractFunction.fromJson, ContractFunction.toJson, Json.getField,
        Json.lookupField, decodeStr, decodeStrList, decodeStrElems_map,
        functionInput_list_roundtrip, functionOutput_list_roundtrip]

/-- Round trip of a serialized `list[ContractFunction]`. -/
theorem contractFunction_list_roundtrip (fs : List ContractFunction) :
    ContractFunction.fromJsonList (fs.map ContractFunction.toJson) = .ok fs := by
  induction fs with
  | nil => rfl
  | cons f rest ih =>
      simp [ContractFunction.fromJsonList, contractFunction_roundtrip, ih]

/-- Round trip of a serialized Constructor through pydantic validation. -/
theorem constructorSpec_roundtrip (c : Constructor) :
    Constructor.fromJson c.toJson = .ok c := by
  cases c
  simp [Constructor.fromJson, Constructor.toJson, Json.getField,
        Json.lookupField, decodeStr, functionInput_list_roundtrip]

/-- Round trip of a serialized ContractPlan through pydantic validation. -/
theorem contractPlan_roundtrip (c : ContractPlan) :
    ContractPlan.fromJson c.toJson = .ok c := by
  cases c with
  | mk name description erc_template dependencies ctor functions =>
      cases erc_template <;>
        simp [ContractPlan.fromJson, ContractPlan.toJson, Json.getField,
              Json.lookupField, decodeStr, decodeOptStr, decodeStrList,
              decodeStrElems_map, constructorSpec_roundtrip,
              contractFunction_list_roundtrip]

/-- Round trip of a serialized `list[ContractPlan]`. -/
theorem contractPlan_list_roundtrip (cs : List ContractPlan) :
    ContractPlan.fromJsonList (cs.map ContractPlan.toJson) = .ok cs := by
  induction cs with
  | nil => rfl
  | cons c rest ih =>
      simp [ContractPlan.fromJsonList, contractPlan_roundtrip, ih]

/-- Parsing a status string value back gives the member it came from. -/
theorem PlanStatus.ofValue_value (st : PlanStatus) :
    PlanStatus.ofValue st.value = some st := by
  cases st <;> rfl

/-- Serialize then validate is the identity on plan documents. -/
theorem SmartContractPlan.fromJson_model_dump (p : SmartContractPlan) :
    SmartContractPlan.fromJson p.model_dump = .ok p := by
  cases p
  simp [SmartContractPlan.fromJson, SmartContractPlan.model_dump, Json.getField,
        Json.lookupField, decodeStr, decodeStatus, decodeContracts,
        PlanStatus.ofValue_value, contractPlan_list_roundtrip]

/-- model_dump is injective: distinct documents serialize distinctly. -/
theorem SmartContractPlan.model_dump_inj (p q : SmartContractPlan)
    (h : p.model_dump = q.model_dump) : p = q := by
  have hp := SmartContractPlan.fromJson_model_dump p
  have hq := SmartContractPlan.fromJson_model_dump q
  rw [h, hq] at hp
  exact (Except.ok.inj hp).symm

/-- When validation succeeds on an object whose status key holds the string
`sv`, the constructed document's status is the parsed member of `sv`. -/
theorem SmartContractPlan.fromJson_status (fields : List (String × Json))
    (p : SmartContractPlan) (sv : String)
    (hst : Json.lookupField fields "status" = some (.str sv))
    (h : SmartContractPlan.fromJson (.obj fields) = .ok p) :
    PlanStatus.ofValue sv = some p.status := by
  simp only [SmartContractPlan.fromJson, Json.getField] at h
  rw [hst] at h
  cases hpn : decodeStr "project_name" (Json.lookupField fields "project_name") with
  | error e => simp [hpn] at h
  | ok pn =>
    cases hd : decodeStr "description" (Json.lookupField fields "description") with
    | error e => simp [hpn, hd] at h
    | ok d =>
      cases hov : PlanStatus.ofValue sv with
      | none => simp [hpn, hd, decodeStatus, hov] at h
      | some st =>
        cases hcs : decodeContracts (Json.lookupField fields "contracts") with
        | error e => simp [hpn, hd, decodeStatus, hov, hcs] at h
        | ok cs =>
          simp only [hpn, hd, decodeStatus, hov, hcs, except_ok_bind] at h
          have hp := Except.ok.inj h
          subst hp
          rfl

/-- A deterministic stand-in for the external json.loads capability at
concrete inputs: a fixed parse table, every other string a syntax error. -/
def loadsFixture (table : List (String × Json)) : String → Except String Json :=
  fun s =>
    match Json.lookupField table s with
    | some j => .ok j
    | none => .error "Expecting value: line 1 column 1 (char 0)"

/-- Concrete function used by the concrete documents below. -/
def mintFunction : ContractFunction :=
  { name := "mint", description := "Creates new tokens",
    inputs := [{ name := "to", type := "address", description := "Recipient" }],
    outputs := [],
    conditions := ["Caller must be the contract owner"] }

/-- Concrete contract used by the concrete documents below. -/
def coinContract : ContractPlan :=
  { name := "Coin", description := "Main token contract",
    erc_template := some "ERC-20", dependencies := ["Ownable"],
    constructor := { inputs := [{ name := "initialSupply", type := "uint256",
                                  description := "Initial supply" }],
                     description := "Mints initial supply to deployer" },
    functions := [mintFunction] }

/-- A concrete document already deployed on-chain. -/
def deployedPlan : SmartContractPlan :=
  { project_name := "Coin", description := "A fungible token",
    status := PlanStatus.DEPLOYED, contracts := [coinContract] }

/-- The same concrete document as a draft. -/
def draftPlan : SmartContractPlan :=
  { project_name := "Coin", description := "A fungible token",
    status := PlanStatus.DRAFT, contracts := [coinContract] }

/-- A concrete document whose code is being generated. -/
def generatingPlan : SmartContractPlan :=
  { project_name := "Coin", description := "A fungible token",
    status := PlanStatus.GENERATING, contracts := [coinContract] }

/-- A concrete valid-by-schema document with zero contracts and status
ready. -/
def readyEmptyPlan : SmartContractPlan :=
  { project_name := "Empty", description := "No contracts yet",
    status := PlanStatus.READY, contracts := [] }

/-- The store as MemoryManager creates it: every block at its sentinel. -/
def emptyStore : Store :=
  { current_plan := none, user_context := "No user context yet.",
    global_contract_plan := none }

/-- A store whose current and global blocks hold the deployed document. -/
def deployedStore : Store :=
  { current_plan := some deployedPlan.model_dump,
    user_context := "No user context yet.",
    global_contract_plan := some deployedPlan.model_dump }

/-- A store whose current and global blocks hold the generating document. -/
def generatingStore : Store :=
  { current_plan := some generatingPlan.model_dump,
    user_context := "No user context yet.",
    global_contract_plan := some generatingPlan.model_dump }

/-- The Coin document as a JSON payload without a status key, as the model
would send it to a tool. -/
def coinPayload : Json :=
  .obj [("project_name", .str "Coin"),
        ("description", .str "A fungible token"),
        ("contracts", .arr [coinContract.toJson])]

/-- A JSON payload whose contracts list is empty. -/
def emptyContractsPayload : Json :=
  .obj [("project_name", .str "Empty"),
        ("description", .str "No contracts yet"),
        ("contracts", .arr [])]

/-- get_current_plan never changes the store. -/
theorem get_current_plan_state (s : Store) : (get_current_plan s).1 = s := by
  unfold get_current_plan MemoryManager.get_plan
  cases hc : s.current_plan <;> simp

/-- get_erc_standard never changes the store. -/
theorem get_erc_standard_state (standard_name : String) (s : Store) :
    (get_erc_standard standard_name s).1 = s := by
  unfold get_erc_standard
  cases hf : findStandard ERC_STANDARDS
      (pyStrip (pyReplace (pyUpper standard_name) "ERC" "ERC-")) <;> simp [hf]

/-- validate_plan never changes the store. -/
theorem validate_plan_state (loads : String → Except String Json)
    (arg : String) (s : Store) : (validate_plan loads arg s).1 = s := by
  unfold validate_plan
  cases h1 : loads arg with
  | error e => simp
  | ok raw => cases h2 : SmartContractPlan.fromJson raw <;> simp [h2]

/-- Saving the same draft twice leaves the store where one save left it. -/
theorem save_plan_draft_idem (loads : String → Except String Json)
    (arg : String) (s : Store) :
    (save_plan_draft loads arg (save_plan_draft loads arg s).1).1
      = (save_plan_draft loads arg s).1 := by
  unfold save_plan_draft MemoryManager.save_plan
  cases h1 : loads arg with
  | error e => simp [h1]
  | ok raw =>
    cases h2 : raw.setField "status" (.str PlanStatus.DRAFT.value) with
    | error e => simp [h1, h2]
    | ok raw2 =>
      cases h3 : SmartContractPlan.fromJson raw2 with
      | error e => simp [h1, h2, h3]
      | ok plan => simp [h1, h2, h3]

/-- Publishing the same payload twice leaves the store where one publish
left it. -/
theorem publish_final_plan_idem (loads : String → Except String Json)
    (arg : String) (s : Store) :
    (publish_final_plan loads arg (publish_final_plan loads arg s).1).1
      = (publish_final_plan loads arg s).1 := by
  unfold publish_final_plan MemoryManager.save_plan
  cases h1 : loads arg with
  | error e => simp [h1]
  | ok raw =>
    cases h2 : raw.setField "status" (.str PlanStatus.READY.value) with
    | error e => simp [h1, h2]
    | ok raw2 =>
      cases h3 : SmartContractPlan.fromJson raw2 with
      | error e => simp [h1, h2, h3]
      | ok plan => simp [h1, h2, h3]

/-- Saving the same reasoning note twice leaves the store where one save
left it: the tool reads notes out of the stored plan (never out of the
user_context block it writes), so a repeated call recomputes the same
joined text. -/
theorem save_reasoning_note_idem (note : String) (s : Store) :
    (save_reasoning_note note (save_reasoning_note note s).1).1
      = (save_reasoning_note note s).1 := by
  unfold save_reasoning_note MemoryManager.get_plan MemoryManager.update_user_context
  cases hc : s.current_plan with
  | none => simp [hc]
  | some plan =>
    cases hg : plan.getField "_reasoning_notes" with
    | none => simp [hc, hg]
    | some v =>
      cases v <;> simp [hc, hg]
      case arr xs =>
        cases he : stringElems xs <;> simp [hc, hg, he]

/-- C9: for every valid PlanDocument, serialize → deserialize → validate
yields a document equal to the original: the round trip is lossless, no
field is dropped and list order is preserved. -/
theorem c9_serialize_deserialize_roundtrip (p : SmartContractPlan) :
    SmartContractPlan.fromJson p.model_dump = Except.ok p :=
  SmartContractPlan.fromJson_model_dump p

/-- C10: a payload that omits the status key but is otherwise well-formed
validates successfully and the constructed document has status draft — the
field defaults instead of being required — while every serialized document
does carry a status field. -/
theorem c10_omitted_status_defaults_to_draft (fields : List (String × Json))
    (pn d : String) (cs : List Json) (contracts : List ContractPlan)
    (hpn : Json.lookupField fields "project_name" = some (.str pn))
    (hd : Json.lookupField fields "description" = some (.str d))
    (hst : Json.lookupField fields "status" = none)
    (hcs : Json.lookupField fields "contracts" = some (.arr cs))
    (hdec : ContractPlan.fromJsonList cs = .ok contracts) :
    SmartContractPlan.fromJson (.obj fields)
      = .ok { project_name := pn, description := d,
              status := PlanStatus.DRAFT, contracts := contracts }
    ∧ ∀ q : SmartContractPlan,
        Json.getField q.model_dump "status" = some (.str q.status.value) := by
  constructor
  · simp [SmartContractPlan.fromJson, Json.getField, hpn, hd, hst, hcs, hdec,
          decodeStr, decodeStatus, decodeContracts]
  · intro q
    rfl

/-- Witness for C10 at a concrete payload without a status key. -/
theorem c10_omitted_status_defaults_to_draft_witness :
    SmartContractPlan.fromJson (.obj [("project_name", .str "Empty"),
        ("description", .str "No contracts yet"), ("contracts", .arr [])])
      = .ok { project_name := "Empty", description := "No contracts yet",
              status := PlanStatus.DRAFT, contracts := [] }
    ∧ ∀ q : SmartContractPlan,
        Json.getField q.model_dump "status" = some (.str q.status.value) :=
  c10_omitted_status_defaults_to_draft
    [("project_name", .str "Empty"), ("description", .str "No contracts yet"),
     ("contracts", .arr [])]
    "Empty" "No contracts yet" [] [] rfl rfl rfl rfl rfl

/-- C8: save-draft on an object payload missing project_name returns the
schema diagnostic naming project_name and writes nothing: the store comes
back exactly as it was, no block created or overwritten. -/
theorem c8_missing_project_name_writes_nothing
    (loads : String → Except String Json) (arg : String) (s : Store)
    (fields : List (String × Json))
    (hload : loads arg = .ok (.obj fields))
    (hmissing : Json.lookupField fields "project_name" = none) :
    save_plan_draft loads arg s
      = (s, "Could not save draft: project_name: Field required")
    ∧ strContains "Could not save draft: project_name: Field required"
        "project_name" = true := by
  have hget : Json.lookupField
      (Json.setKey fields "status" (.str PlanStatus.DRAFT.value))
      "project_name" = none := by
    rw [Json.lookupField_setKey_ne fields "status" "project_name" _ (by decide)]
    exact hmissing
  constructor
  · unfold save_plan_draft
    rw [hload]
    simp [Json.setField, SmartContractPlan.fromJson, Json.getField, hget,
          decodeStr]
  · rfl

/-- Witness for C8 at a concrete payload missing project_name. -/
theorem c8_missing_project_name_writes_nothing_witness :
    save_plan_draft (loadsFixture [("p", Json.obj [("description", .str "x")])])
        "p" emptyStore
      = (emptyStore, "Could not save draft: project_name: Field required")
    ∧ strContains "Could not save draft: project_name: Field required"
        "project_name" = true :=
  c8_missing_project_name_writes_nothing
    (loadsFixture [("p", Json.obj [("description", .str "x")])]) "p" emptyStore
    [("description", .str "x")] rfl rfl

/-- C5: after the agent replies, the router moves to the plan-extraction
node exactly when the reply contains the PLAN_READY sentinel, or a fenced
block tagged ```json, or the plan_ready flag set by a prior step; in every
other case control goes back to awaiting user input. -/
theorem c5_router_transition_iff (st : PlanningState) :
    (should_continue st = "extract_plan" ↔
       (strContains (st.messages.getLastD "") "PLAN_READY" = true
        ∨ strContains (st.messages.getLastD "") "```json" = true
        ∨ st.plan_ready = true))
    ∧ (should_continue st = "extract_plan"
       ∨ should_continue st = "human_input") := by
  unfold should_continue
  generalize st.messages.getLastD "" = m
  cases hp : st.plan_ready <;>
    cases h1 : strContains m "```json" <;>
      cases h2 : strContains m "PLAN_READY" <;>
        simp [hp, h1, h2]

/-- C4: extraction takes the text after the PLAN_READY sentinel (the whole
reply when the sentinel is absent), strips the outer fence and an optional
json language tag when fence markers delimit the remainder, trims
whitespace, parses the candidate and schema-validates it; success finalizes
with the validated document, and any parse or validation failure is
non-fatal — the session returns to the conversation state with plan_ready
false and final_plan absent, the message history unchanged either way. -/
theorem c4_extraction_algorithm (loads : String → Except String Json)
    (st : PlanningState) (reply : String)
    (hlast : st.messages.getLastD "" = reply) :
    extract_plan loads st
      = (match parsePlan loads (extractCandidate reply) with
         | .ok plan => { messages := st.messages, plan_ready := true,
                         final_plan := some plan.model_dump }
         | .error _ => { messages := st.messages, plan_ready := false,
                         final_plan := none })
    ∧ extractCandidate reply
      = (let afterSentinel :=
           if strContains reply "PLAN_READY" then
             pyStrip ((pySplit reply "PLAN_READY").getLastD "")
           else reply
         let unfenced :=
           if strContains afterSentinel "```" then
             (let piece := (pySplit afterSentinel "```").getD 1 ""
              if pyStartsWith piece "json" then pyDrop piece 4 else piece)
           else afterSentinel
         pyStrip unfenced) := by
  constructor
  · unfold extract_plan
    rw [hlast]
  · rfl

/-- Witness for C4 at a concrete fenced reply whose payload validates. -/
theorem c4_extraction_algorithm_witness :
    extract_plan (loadsFixture [("coin", draftPlan.model_dump)])
        { messages := ["PLAN_READY\n```json\ncoin\n```"], plan_ready := true,
          final_plan := none }
      = (match parsePlan (loadsFixture [("coin", draftPlan.model_dump)])
             (extractCandidate "PLAN_READY\n```json\ncoin\n```") with
         | .ok plan =>
             { messages := ["PLAN_READY\n```json\ncoin\n```"],
               plan_ready := true, final_plan := some plan.model_dump }
         | .error _ =>
             { messages := ["PLAN_READY\n```json\ncoin\n```"],
               plan_ready := false, final_plan := none })
    ∧ extractCandidate "PLAN_READY\n```json\ncoin\n```"
      = (let afterSentinel :=
           if strContains "PLAN_READY\n```json\ncoin\n```" "PLAN_READY" then
             pyStrip ((pySplit "PLAN_READY\n```json\ncoin\n```"
                        "PLAN_READY").getLastD "")
           else "PLAN_READY\n```json\ncoin\n```"
         let unfenced :=
           if strContains afterSentinel "```" then
             (let piece := (pySplit afterSentinel "```").getD 1 ""
              if pyStartsWith piece "json" then pyDrop piece 4 else piece)
           else afterSentinel
         pyStrip unfenced) :=
  c4_extraction_algorithm (loadsFixture [("coin", draftPlan.model_dump)])
    { messages := ["PLAN_READY\n```json\ncoin\n```"], plan_ready := true,
      final_plan := none }
    "PLAN_READY\n```json\ncoin\n```" rfl

/-- C6: each tool of the registry is idempotent with respect to repeated
identical calls — the second identical call leaves the stored state exactly
where the first left it. Each tool is embedded as a total function whose
failures are the returned text of the pair's second component (the
try/except blocks of the source), so no call raises. -/
theorem c6_registry_tools_idempotent (loads : String → Except String Json)
    (arg note : String) (s : Store) :
    (get_current_plan (get_current_plan s).1).1 = (get_current_plan s).1
    ∧ (save_plan_draft loads arg (save_plan_draft loads arg s).1).1
        = (save_plan_draft loads arg s).1
    ∧ (get_erc_standard arg (get_erc_standard arg s).1).1
        = (get_erc_standard arg s).1
    ∧ (validate_plan loads arg (validate_plan loads arg s).1).1
        = (validate_plan loads arg s).1
    ∧ (publish_final_plan loads arg (publish_final_plan loads arg s).1).1
        = (publish_final_plan loads arg s).1
    ∧ (save_reasoning_note note (save_reasoning_note note s).1).1
        = (save_reasoning_note note s).1 := by
  refine ⟨?_, save_plan_draft_idem loads arg s, ?_, ?_,
          publish_final_plan_idem loads arg s,
          save_reasoning_note_idem note s⟩
  · rw [get_current_plan_state, get_current_plan_state]
  · rw [get_erc_standard_state, get_erc_standard_state]
  · rw [validate_plan_state, validate_plan_state]

/-- C2 fails on the code: with a generating document stored, a write whose
status draft is strictly earlier in the enum order is accepted — save_plan
overwrites both tiers instead of rejecting, both when called directly and
through the save-draft tool. -/
theorem c2_backward_status_write_accepted :
    PlanStatus.rank draftPlan.status < PlanStatus.rank generatingPlan.status
    ∧ MemoryManager.get_plan generatingStore = some generatingPlan.model_dump
    ∧ MemoryManager.save_plan draftPlan.model_dump generatingStore
        = { current_plan := some draftPlan.model_dump,
            user_context := "No user context yet.",
            global_contract_plan := some draftPlan.model_dump }
    ∧ (save_plan_draft (loadsFixture [("coin", coinPayload)]) "coin"
         generatingStore).1.current_plan = some draftPlan.model_dump
    ∧ draftPlan ≠ generatingPlan :=
  ⟨by decide, rfl, rfl, rfl, by decide⟩

/-- C2 amended: the store performs no status-ordering check at all —
save_plan is last-writer-wins, so a write whose status is strictly earlier
in the enum order than the stored status also succeeds and overwrites both
tiers. -/
theorem c2_amended_no_ordering_check (incoming stored : SmartContractPlan)
    (s : Store) (hs : s.current_plan = some stored.model_dump)
    (hlt : PlanStatus.rank incoming.status < PlanStatus.rank stored.status) :
    MemoryManager.save_plan incoming.model_dump s
      = { current_plan := some incoming.model_dump,
          user_context := s.user_context,
          global_contract_plan := some incoming.model_dump } := rfl

/-- Witness for the amended C2: the draft-over-generating write lands. -/
theorem c2_amended_no_ordering_check_witness :
    MemoryManager.save_plan draftPlan.model_dump generatingStore
      = { current_plan := some draftPlan.model_dump,
          user_context := "No user context yet.",
          global_contract_plan := some draftPlan.model_dump } :=
  c2_amended_no_ordering_check draftPlan generatingPlan generatingStore rfl
    (by decide)

/-- C3 fails on the code: publishing a payload with zero contracts succeeds
and persists a status-ready document to both tiers. -/
theorem c3_zero_contract_publish_succeeds :
    readyEmptyPlan.contracts = []
    ∧ readyEmptyPlan.status = PlanStatus.READY
    ∧ publish_final_plan (loadsFixture [("empty", emptyContractsPayload)])
        "empty" emptyStore
      = ({ current_plan := some readyEmptyPlan.model_dump,
           user_context := "No user context yet.",
           global_contract_plan := some readyEmptyPlan.model_dump },
         "Plan published successfully!\nProject 'Empty' is now status 'ready'.\nThe code generation agent can now pick this up from global memory.\nThe user can still edit the plan as long as the contract is not deployed.") :=
  ⟨rfl, rfl, rfl⟩

/-- C3 amended: publish runs only the structural schema check, which puts no
lower bound on contracts or functions — every payload that validates once
status is forced to ready is persisted to both tiers with status ready, a
zero-contract document included. -/
theorem c3_amended_publish_schema_only (loads : String → Except String Json)
    (arg : String) (s : Store) (raw : Json) (fields2 : List (String × Json))
    (plan : SmartContractPlan)
    (hload : loads arg = .ok raw)
    (hset : raw.setField "status" (.str PlanStatus.READY.value)
              = .ok (.obj fields2))
    (hvalid : SmartContractPlan.fromJson (.obj fields2) = .ok plan)
    (hempty : plan.contracts = []) :
    (publish_final_plan loads arg s).1
      = { current_plan := some plan.model_dump,
          user_context := s.user_context,
          global_contract_plan := some plan.model_dump }
    ∧ plan.status = PlanStatus.READY := by
  constructor
  · simp [publish_final_plan, hload, hset, hvalid, MemoryManager.save_plan]
  · cases raw with
    | obj fs =>
        have hfields : Json.setKey fs "status" (.str PlanStatus.READY.value)
            = fields2 := by
          simpa [Json.setField] using hset
        have hlook : Json.lookupField fields2 "status"
            = some (.str PlanStatus.READY.value) := by
          rw [← hfields]
          exact Json.lookupField_setKey_self fs "status" _
        have hov := SmartContractPlan.fromJson_status fields2 plan
          PlanStatus.READY.value hlook hvalid
        have : some PlanStatus.READY = some plan.status := by
          simpa [PlanStatus.ofValue, PlanStatus.value] using hov
        exact (Option.some.inj this).symm
    | null => simp [Json.setField] at hset
    | bool b => simp [Json.setField] at hset
    | num n => simp [Json.setField] at hset
    | str s2 => simp [Json.setField] at hset
    | arr xs => simp [Json.setField] at hset

/-- Witness for the amended C3: the zero-contract publish at its concrete
payload. -/
theorem c3_amended_publish_schema_only_witness :
    (publish_final_plan (loadsFixture [("empty", emptyContractsPayload)])
        "empty" emptyStore).1
      = { current_plan := some readyEmptyPlan.model_dump,
          user_context := "No user context yet.",
          global_contract_plan := some readyEmptyPlan.model_dump }
    ∧ readyEmptyPlan.status = PlanStatus.READY :=
  c3_amended_publish_schema_only
    (loadsFixture [("empty", emptyContractsPayload)]) "empty" emptyStore
    emptyContractsPayload
    [("project_name", .str "Empty"), ("description", .str "No contracts yet"),
     ("contracts", .arr []), ("status", .str "ready")]
    readyEmptyPlan rfl rfl rfl rfl

/-- The Coin document with status ready, as publish constructs it. -/
def readyCoinPlan : SmartContractPlan :=
  { project_name := "Coin", description := "A fungible token",
    status := PlanStatus.READY, contracts := [coinContract] }

/-- C1 describes intended behavior the tools do not implement: with the
stored document deployed, save_plan_draft reports success and overwrites the
deployed document with a draft copy in both tiers, and publish_final_plan
overwrites it with a ready copy — neither raises an Illegal-Transition
error, and the stored document changes. -/
theorem c1_deployed_document_not_protected :
    deployedPlan.status = PlanStatus.DEPLOYED
    ∧ MemoryManager.get_plan deployedStore = some deployedPlan.model_dump
    ∧ save_plan_draft (loadsFixture [("coin", coinPayload)]) "coin"
        deployedStore
      = ({ current_plan := some draftPlan.model_dump,
           user_context := "No user context yet.",
           global_contract_plan := some draftPlan.model_dump },
         "Draft saved successfully. Plan has 1 contract(s) and status is 'draft'.")
    ∧ (publish_final_plan (loadsFixture [("coin", coinPayload)]) "coin"
         deployedStore).1.current_plan = some readyCoinPlan.model_dump
    ∧ (save_plan_draft (loadsFixture [("coin", coinPayload)]) "coin"
         deployedStore).1.current_plan ≠ deployedStore.current_plan := by
  refine ⟨rfl, rfl, rfl, rfl, ?_⟩
  intro h
  have hd : draftPlan.model_dump = deployedPlan.model_dump :=
    Option.some.inj h
  exact absurd (SmartContractPlan.model_dump_inj draftPlan deployedPlan hd)
    (by decide)

/-- C7 describes intended behavior the lookup's normalization defeats: upper
+ replace("ERC", "ERC-") maps the documented ids "ERC-20" and "erc-20" both
to "ERC--20", so both take the unknown-id branch (with messages differing in
the echoed argument, so not even identical), while only the dash-free form
"erc20" reaches the stored ERC-20 reference record. -/
theorem c7_dashed_template_ids_fall_to_unknown :
    pyStrip (pyReplace (pyUpper "ERC-20") "ERC" "ERC-") = "ERC--20"
    ∧ (get_erc_standard "ERC-20" emptyStore).2
      = "Unknown standard 'ERC-20'. Available standards: ERC-20, ERC-721, ERC-1155. If the user wants something custom, use null for erc_template."
    ∧ (get_erc_standard "erc-20" emptyStore).2
      = "Unknown standard 'erc-20'. Available standards: ERC-20, ERC-721, ERC-1155. If the user wants something custom, use null for erc_template."
    ∧ (get_erc_standard "ERC-20" emptyStore).2
        ≠ (get_erc_standard "erc-20" emptyStore).2
    ∧ pyStrip (pyReplace (pyUpper "erc20") "ERC" "ERC-") = "ERC-20"
    ∧ (findStandard ERC_STANDARDS "ERC-20").isSome = true := by
  refine ⟨rfl, rfl, rfl, ?_, rfl, rfl⟩
  intro h
  have : ("Unknown standard 'ERC-20'. Available standards: ERC-20, ERC-721, ERC-1155. If the user wants something custom, use null for erc_template." : String)
      = "Unknown standard 'erc-20'. Available standards: ERC-20, ERC-721, ERC-1155. If the user wants something custom, use null for erc_template." := h
  simp at this
